import Mathlib

/-!
Shallow embedding of the Atlas Scientific sensor firmware
(two near-identical sketch variants: the plain-serial variant in
`atlas-statsd.ino`, embedded in namespace `V1`, and the debug-macro variant,
embedded in namespace `V2` with the debug flag left undefined, as shipped).

Modelling conventions:
* I2C and UDP side effects are recorded as an explicit list of `event`s.
* Bytes delivered by the I2C bus on a read request are supplied as an
  environment function `bus : Nat → Nat` (`bus i` is the i-th byte returned).
* C `float` arithmetic in the threshold logic is idealised as exact rational
  arithmetic over `ℚ` (the literal `0.05` becomes the rational `0.05`).
* The Arduino `String(buffer)` constructor over a `char` array is modelled as
  decoding the bytes read, truncated at the first NUL byte
  (`decodeCString`); the C library `atof` is modelled for decimal forms
  (optional whitespace, sign, digits, optional fraction); a string with a
  non-numeric head parses to `0`, as `atof` specifies.
* Debug text built from numbers (`String(last_reading)` and so on) is
  rendered with `toString`; only the presence of serial events, never their
  text, matters to any statement below.
-/

namespace AtlasStatsd

/-- An IPv4 address, as built by the Arduino `IPAddress(a,b,c,d)` constructor. -/
structure ip_address where
  a : Nat
  b : Nat
  c : Nat
  d : Nat
deriving DecidableEq

/-- One observable side effect of the firmware: an I2C write transaction
(`Wire.beginTransmission` / `Wire.write` / `Wire.endTransmission`), a blocking
delay, an I2C read request (`Wire.requestFrom`), one outbound UDP datagram
(`beginPacket` / `write` / `endPacket`), a serial debug print, or the
device-level deep sleep. -/
inductive event where
  | i2cWrite (address : Nat) (command : String)
  | delayMs (ms : Nat)
  | i2cRequest (address : Nat) (size : Nat)
  | udpSend (dest : ip_address) (port : Nat) (payload : String)
  | serialPrint (msg : String)
  | deepSleep (seconds : Nat)
deriving DecidableEq

/-- Is this event an I2C read request (`Wire.requestFrom`)? -/
def event.isReadRequest : event → Bool
  | .i2cRequest _ _ => true
  | _ => false

/-- Is this event an outbound UDP datagram? -/
def event.isUdpSend : event → Bool
  | .udpSend _ _ _ => true
  | _ => false

/-- Is this event a serial debug print? -/
def event.isSerialPrint : event → Bool
  | .serialPrint _ => true
  | _ => false

/-- Is this event I2C bus traffic (write transaction or read request)? -/
def event.isI2c : event → Bool
  | .i2cWrite _ _ => true
  | .i2cRequest _ _ => true
  | _ => false

/-- Drop serial debug prints from a trace. -/
def stripSerial (tr : List event) : List event :=
  tr.filter (fun e => !e.isSerialPrint)

/-- Keep only the externally visible I/O of a trace: I2C traffic and UDP
datagrams (drops delays, serial prints and the power-down step). -/
def ioEvents (tr : List event) : List event :=
  tr.filter (fun e => e.isI2c || e.isUdpSend)

/-- Embeds `unsigned int udp_local_port = 8888;`. -/
def udp_local_port : Nat := 8888

/-- Embeds `IPAddress remoteIP(159, 203, 144, 95);`. -/
def remoteIP : ip_address := ⟨159, 203, 144, 95⟩

/-- Embeds `float delta_to_publish = 0.05;` (idealised as the exact rational). -/
def delta_to_publish : ℚ := 0.05

/-- Embeds `typedef enum { ph, ec, orp, dissolved_oxygen } chip_type;`. -/
inductive chip_type where
  | ph
  | ec
  | orp
  | dissolved_oxygen
deriving DecidableEq

/-- The integer value the C enum constant carries (used only in debug text). -/
def chip_type.code : chip_type → Nat
  | .ph => 0
  | .ec => 1
  | .orp => 2
  | .dissolved_oxygen => 3

/-- Embeds `typedef enum { i2c, serial } chip_mode;`. -/
inductive chip_mode where
  | i2c
  | serial
deriving DecidableEq

/-- Embeds `struct atlas_chip` with fields type, mode, address and data. -/
structure atlas_chip where
  type : chip_type
  mode : chip_mode
  address : Nat
  data : String
deriving DecidableEq

/-- Embeds `struct atlas_chip ph_chip = { .type = ph, .mode = i2c, .address = 0x63 };`
(the `data` field is a default-constructed, i.e. empty, Arduino String). -/
def ph_chip : atlas_chip := { type := .ph, mode := .i2c, address := 0x63, data := "" }

/-- The Arduino `String(char_array)` constructor over the bytes pulled off the
bus: the bytes up to (not including) the first NUL byte, as characters. -/
def decodeCString (bytes : List Nat) : String :=
  String.mk ((bytes.takeWhile (fun b => b != 0)).map Char.ofNat)

/-- Numeric value of a string of decimal digit characters. -/
def digitsToNat (ds : List Char) : Nat :=
  ds.foldl (fun acc c => 10 * acc + (c.toNat - 48)) 0

/-- Model of the C library function `atof` restricted to decimal forms:
skip leading whitespace, read an optional sign, integer digits and an
optional fraction, and return the value; a string whose first
non-whitespace character starts no number parses to `0`.  (Exponent
notation never occurs in the sensor data or the fixed error strings.) -/
def atof (s : String) : ℚ :=
  let cs := s.data.dropWhile Char.isWhitespace
  let signed : Bool × List Char :=
    match cs with
    | '-' :: rest => (true, rest)
    | '+' :: rest => (false, rest)
    | _ => (false, cs)
  let intPart := signed.2.takeWhile Char.isDigit
  let afterInt := signed.2.dropWhile Char.isDigit
  let fracPart :=
    match afterInt with
    | '.' :: rest => rest.takeWhile Char.isDigit
    | _ => []
  let mag : ℚ := (digitsToNat intPart : ℚ) + (digitsToNat fracPart : ℚ) / 10 ^ fracPart.length
  if signed.1 then -mag else mag

/-- The fixed status-2 message of `chip_command`. -/
def requestFailedMsg : String := "Request Failed"

/-- The fixed status-254 message of `chip_command`. -/
def pendingMsg : String :=
  "Pending - the request is still being processed. Ensure that you have waited the minimum time to guarantee a repsonse"

/-- The fixed status-255 message of `chip_command`. -/
def noDataMsg : String :=
  "No Data - there is no pending request, so there is no data to return from the circuit"

namespace V1

/-- Embeds `String chip_command(String chip_command, byte chip_address, int read_delay,
int response_size)` of the plain-serial variant.  Writes the command, blocks
for the settle delay, and, unless `response_size` is zero, requests
`response_size` bytes: the first byte is the status code, the next
`response_size - 1` bytes fill the reading buffer, and the result text is
chosen by the status-code switch (the default-constructed empty string falls
through for any other status). -/
def chip_command (command : String) (chip_address : Nat) (read_delay : Nat)
    (response_size : Nat) (bus : Nat → Nat) : String × List event :=
  let response_data : String := ""
  let sent := [event.i2cWrite chip_address command, event.delayMs read_delay]
  if response_size = 0 then
    (response_data, sent)
  else
    let response_code := bus 0
    let reading := (List.range (response_size - 1)).map (fun byte_num => bus (byte_num + 1))
    let response_data :=
      match response_code with
      | 1 => decodeCString reading
      | 2 => "Request Failed"
      | 254 =>
        "Pending - the request is still being processed. Ensure that you have waited the minimum time to guarantee a repsonse"
      | 255 =>
        "No Data - there is no pending request, so there is no data to return from the circuit"
      | _ => response_data
    (response_data, sent ++ [event.i2cRequest chip_address response_size])

/-- Embeds `void get_reading(struct atlas_chip *chip)`: per-type "R" command whose
result overwrites the chip's `data` field. -/
def get_reading (chip : atlas_chip) (bus : Nat → Nat) : atlas_chip × List event :=
  match chip.type with
  | .ph =>
    let r := chip_command "R" chip.address 1000 7 bus
    ({ chip with data := r.1 }, r.2)
  | .ec =>
    let r := chip_command "R" chip.address 1000 32 bus
    ({ chip with data := r.1 }, r.2)
  | .orp =>
    let r := chip_command "R" chip.address 1000 8 bus
    ({ chip with data := r.1 }, r.2)
  | .dissolved_oxygen =>
    let r := chip_command "R" chip.address 1000 14 bus
    ({ chip with data := r.1 }, r.2)

/-- Embeds `void publish_data(String data)`: one UDP datagram carrying the statsd
gauge line, to the fixed remote endpoint. -/
def publish_data (device_id : String) (data : String) : List event :=
  [event.udpSend remoteIP udp_local_port ("aqpncs." ++ device_id ++ ":" ++ data ++ "|g")]

/-- Embeds `void chip_sleep(struct atlas_chip chip)`: "SLEEP", 300 ms delay, no
response expected.  The chip is received by value; the returned descriptor is
the callee's (unmodified) copy at return. -/
def chip_sleep (chip : atlas_chip) (bus : Nat → Nat) : atlas_chip × List event :=
  let sleep_command := "SLEEP"
  let processing_delay := 300
  let expected_response := 0
  (chip, (chip_command sleep_command chip.address processing_delay expected_response bus).2)

/-- Embeds `void chip_wake(struct atlas_chip chip)`: two serial prints, then
`required_readings` purge "R" commands with response size 0 (4, or 16 for the
dissolved-oxygen chip).  The chip is received by value and never written. -/
def chip_wake (chip : atlas_chip) (bus : Nat → Nat) : atlas_chip × List event :=
  let tr0 := [event.serialPrint ("Waking up " ++ toString chip.type.code ++ " chip")]
  let required_readings := if chip.type = chip_type.dissolved_oxygen then 16 else 4
  let tr1 := [event.serialPrint ("Dumping " ++ toString required_readings ++ " readings")]
  let purge := ((List.range required_readings).map
    (fun _ => (chip_command "R" chip.address 1000 0 bus).2)).flatten
  (chip, tr0 ++ tr1 ++ purge)

/-- One pass of `void loop()`: wake, read, threshold decision with conditional
publish and `last_reading` update, chip sleep, then the 15 s delay.  State
threaded explicitly: result is (new `last_reading`, new `ph_chip` value,
event trace). -/
def loop_step (device_id : String) (last_reading : ℚ) (chip : atlas_chip)
    (bus : Nat → Nat) : ℚ × atlas_chip × List event :=
  let tr0 := [event.serialPrint "Waking up chip"]
  let wake := chip_wake chip bus
  let tr1 := [event.serialPrint ("Last reading: " ++ toString last_reading)]
  let read := get_reading wake.1 bus
  let chip := read.1
  let tr2 := [event.serialPrint ("This reading: " ++ chip.data)]
  let decision :=
    if |atof chip.data - last_reading| > delta_to_publish then
      (atof chip.data,
        [event.serialPrint "Detected sensor change greater than configured delta",
         event.serialPrint "Updating EEPROM with last sensor reading"] ++
          publish_data device_id chip.data)
    else
      (last_reading, ([] : List event))
  let tr3 := [event.serialPrint "Putting chip to sleep"]
  let sleep := chip_sleep chip bus
  let tail := [event.delayMs 15000, event.serialPrint "Sleeping for 10 seconds"]
  (decision.1, sleep.1,
    tr0 ++ wake.2 ++ tr1 ++ read.2 ++ tr2 ++ decision.2 ++ tr3 ++ sleep.2 ++ tail)

end V1

namespace V2

/-- Embeds `chip_command` of the debug-macro variant (identical body to `V1`). -/
def chip_command (command : String) (chip_address : Nat) (read_delay : Nat)
    (response_size : Nat) (bus : Nat → Nat) : String × List event :=
  let response_data : String := ""
  let sent := [event.i2cWrite chip_address command, event.delayMs read_delay]
  if response_size = 0 then
    (response_data, sent)
  else
    let response_code := bus 0
    let reading := (List.range (response_size - 1)).map (fun byte_num => bus (byte_num + 1))
    let response_data :=
      match response_code with
      | 1 => decodeCString reading
      | 2 => "Request Failed"
      | 254 =>
        "Pending - the request is still being processed. Ensure that you have waited the minimum time to guarantee a repsonse"
      | 255 =>
        "No Data - there is no pending request, so there is no data to return from the circuit"
      | _ => response_data
    (response_data, sent ++ [event.i2cRequest chip_address response_size])

/-- Embeds `get_reading` of the debug-macro variant (identical body to `V1`). -/
def get_reading (chip : atlas_chip) (bus : Nat → Nat) : atlas_chip × List event :=
  match chip.type with
  | .ph =>
    let r := chip_command "R" chip.address 1000 7 bus
    ({ chip with data := r.1 }, r.2)
  | .ec =>
    let r := chip_command "R" chip.address 1000 32 bus
    ({ chip with data := r.1 }, r.2)
  | .orp =>
    let r := chip_command "R" chip.address 1000 8 bus
    ({ chip with data := r.1 }, r.2)
  | .dissolved_oxygen =>
    let r := chip_command "R" chip.address 1000 14 bus
    ({ chip with data := r.1 }, r.2)

/-- Embeds `publish_data` of the debug-macro variant (identical body to `V1`). -/
def publish_data (device_id : String) (data : String) : List event :=
  [event.udpSend remoteIP udp_local_port ("aqpncs." ++ device_id ++ ":" ++ data ++ "|g")]

/-- Embeds `chip_sleep` of the debug-macro variant (identical body to `V1`). -/
def chip_sleep (chip : atlas_chip) (bus : Nat → Nat) : atlas_chip × List event :=
  let sleep_command := "SLEEP"
  let processing_delay := 300
  let expected_response := 0
  (chip, (chip_command sleep_command chip.address processing_delay expected_response bus).2)

/-- Embeds `chip_wake` of the debug-macro variant: with `DEBUG_ENABLED` undefined (as
shipped) the two `DEBUG_PRINT`s expand to nothing, leaving only the purge
loop. -/
def chip_wake (chip : atlas_chip) (bus : Nat → Nat) : atlas_chip × List event :=
  let required_readings := if chip.type = chip_type.dissolved_oxygen then 16 else 4
  let purge := ((List.range required_readings).map
    (fun _ => (chip_command "R" chip.address 1000 0 bus).2)).flatten
  (chip, purge)

/-- One pass of the debug-macro variant's `void loop()`: all `DEBUG_PRINT`s
expand to nothing, and the pass ends with the 900 s deep sleep instead of the
15 s delay. -/
def loop_step (device_id : String) (last_reading : ℚ) (chip : atlas_chip)
    (bus : Nat → Nat) : ℚ × atlas_chip × List event :=
  let wake := chip_wake chip bus
  let read := get_reading wake.1 bus
  let chip := read.1
  let decision :=
    if |atof chip.data - last_reading| > delta_to_publish then
      (atof chip.data, publish_data device_id chip.data)
    else
      (last_reading, ([] : List event))
  let sleep := chip_sleep chip bus
  let tail := [event.deepSleep 900]
  (decision.1, sleep.1, wake.2 ++ read.2 ++ decision.2 ++ sleep.2 ++ tail)

end V2

/-! ### Helper lemmas (shared) -/

/-- The two variants' `chip_command` bodies are identical. -/
theorem chip_command_variants_eq (command : String) (chip_address read_delay response_size : Nat)
    (bus : Nat → Nat) :
    V1.chip_command command chip_address read_delay response_size bus =
      V2.chip_command command chip_address read_delay response_size bus := rfl

theorem get_reading_variants_eq (chip : atlas_chip) (bus : Nat → Nat) :
    V1.get_reading chip bus = V2.get_reading chip bus := rfl

theorem publish_data_variants_eq (device_id data : String) :
    V1.publish_data device_id data = V2.publish_data device_id data := rfl

theorem chip_sleep_variants_eq (chip : atlas_chip) (bus : Nat → Nat) :
    V1.chip_sleep chip bus = V2.chip_sleep chip bus := rfl

theorem countP_flatten_const {α : Type} (p : α → Bool) (l : List α) (n : Nat) :
    (((List.range n).map (fun _ => l)).flatten).countP p = n * l.countP p := by
  induction n with
  | zero => simp
  | succ k ih => simp [List.range_succ, List.countP_append, ih, Nat.succ_mul]

theorem chip_command_trace (command : String) (a d n : Nat) (bus : Nat → Nat) :
    (V1.chip_command command a d n bus).2 =
      if n = 0 then [event.i2cWrite a command, event.delayMs d]
      else [event.i2cWrite a command, event.delayMs d, event.i2cRequest a n] := by
  by_cases h : n = 0 <;> simp [V1.chip_command, h]

theorem chip_command_trace_no_udp (command : String) (a d n : Nat) (bus : Nat → Nat) :
    ((V1.chip_command command a d n bus).2).countP event.isUdpSend = 0 := by
  rw [chip_command_trace]
  by_cases h : n = 0 <;> simp [h, List.countP_cons, event.isUdpSend]

theorem chip_wake_trace_no_udp (chip : atlas_chip) (bus : Nat → Nat) :
    ((V1.chip_wake chip bus).2).countP event.isUdpSend = 0 := by
  simp only [V1.chip_wake, List.countP_append, countP_flatten_const]
  simp [List.countP_cons, event.isUdpSend, V1.chip_command]

theorem get_reading_trace_no_udp (chip : atlas_chip) (bus : Nat → Nat) :
    ((V1.get_reading chip bus).2).countP event.isUdpSend = 0 := by
  cases h : chip.type <;>
    simp [V1.get_reading, h, chip_command_trace_no_udp]

theorem publish_data_udp_count (device_id data : String) :
    (V1.publish_data device_id data).countP event.isUdpSend = 1 := by
  simp [V1.publish_data, List.countP_cons, event.isUdpSend]

/-- The chip `get_reading` hands to the threshold logic: `data` replaced by
the per-type "R" response. -/
theorem get_reading_result (chip : atlas_chip) (bus : Nat → Nat) :
    (V1.get_reading chip bus).1 =
      { chip with
        data := (V1.chip_command "R" chip.address 1000
          (match chip.type with
            | .ph => 7
            | .ec => 32
            | .orp => 8
            | .dissolved_oxygen => 14) bus).1 } := by
  cases h : chip.type <;> simp [V1.get_reading, h]

/-- The per-type response size of a measurement, as listed by the spec:
pH→7, EC→32, ORP→8, DissolvedOxygen→14. -/
def response_bytes : chip_type → Nat
  | .ph => 7
  | .ec => 32
  | .orp => 8
  | .dissolved_oxygen => 14

theorem chip_wake_fst_v1 (chip : atlas_chip) (bus : Nat → Nat) :
    (V1.chip_wake chip bus).1 = chip := rfl

theorem chip_wake_fst_v2 (chip : atlas_chip) (bus : Nat → Nat) :
    (V2.chip_wake chip bus).1 = chip := rfl

theorem chip_sleep_trace_no_udp (chip : atlas_chip) (bus : Nat → Nat) :
    ((V1.chip_sleep chip bus).2).countP event.isUdpSend = 0 := by
  simp only [V1.chip_sleep]
  exact chip_command_trace_no_udp _ _ _ _ _

/-! ### Claim theorems -/

/-- C2: for every command text, address and settle delay, `chip_command` with
`responseSize = 0` returns empty text and its trace contains no I2C read
request, in both variants. -/
theorem chip_command_size_zero_no_read (command : String) (chip_address read_delay : Nat)
    (bus : Nat → Nat) :
    (V1.chip_command command chip_address read_delay 0 bus).1 = "" ∧
    ((V1.chip_command command chip_address read_delay 0 bus).2.all
      (fun e => !e.isReadRequest)) = true ∧
    (V2.chip_command command chip_address read_delay 0 bus).1 = "" ∧
    ((V2.chip_command command chip_address read_delay 0 bus).2.all
      (fun e => !e.isReadRequest)) = true := by
  refine ⟨rfl, ?_, rfl, ?_⟩ <;>
    simp [V1.chip_command, V2.chip_command, event.isReadRequest]

/-- C4: for every chip descriptor, `chip_wake` issues exactly 4 purge "R"
commands (16 for the dissolved-oxygen type), each with response size 0
(its trace holds no read request), with no early exit — the count is exact —
in both variants. -/
theorem chip_wake_purge_count (chip : atlas_chip) (bus : Nat → Nat) :
    ((V1.chip_wake chip bus).2.countP (fun e => e == event.i2cWrite chip.address "R") =
      if chip.type = chip_type.dissolved_oxygen then 16 else 4) ∧
    ((V1.chip_wake chip bus).2.countP event.isReadRequest = 0) ∧
    ((V2.chip_wake chip bus).2.countP (fun e => e == event.i2cWrite chip.address "R") =
      if chip.type = chip_type.dissolved_oxygen then 16 else 4) ∧
    ((V2.chip_wake chip bus).2.countP event.isReadRequest = 0) := by
  refine ⟨?_, ?_, ?_, ?_⟩ <;>
    simp only [V1.chip_wake, V2.chip_wake, List.countP_append, countP_flatten_const] <;>
    simp [V1.chip_command, V2.chip_command, List.countP_cons, event.isReadRequest]

/-- C6: for every device id and value text, `publish_data` emits exactly the
single UDP datagram `"aqpncs.<deviceId>:<value>|g"` to the fixed remote host
`159.203.144.95` and port `8888`, in both variants. -/
theorem publish_data_single_datagram (device_id data : String) :
    V1.publish_data device_id data =
      [event.udpSend remoteIP udp_local_port
        ("aqpncs." ++ device_id ++ ":" ++ data ++ "|g")] ∧
    V2.publish_data device_id data =
      [event.udpSend remoteIP udp_local_port
        ("aqpncs." ++ device_id ++ ":" ++ data ++ "|g")] ∧
    remoteIP = ⟨159, 203, 144, 95⟩ ∧ udp_local_port = 8888 :=
  ⟨rfl, rfl, rfl, rfl⟩

/-- C7: for every chip descriptor, `get_reading` issues "R" with settle delay
1000 ms and the per-type response size (pH→7, EC→32, ORP→8,
DissolvedOxygen→14), and overwrites the chip's `data` field with the returned
text, in both variants. -/
theorem get_reading_per_type (chip : atlas_chip) (bus : Nat → Nat) :
    V1.get_reading chip bus =
      ({ chip with
          data := (V1.chip_command "R" chip.address 1000 (response_bytes chip.type) bus).1 },
        (V1.chip_command "R" chip.address 1000 (response_bytes chip.type) bus).2) ∧
    V2.get_reading chip bus =
      ({ chip with
          data := (V2.chip_command "R" chip.address 1000 (response_bytes chip.type) bus).1 },
        (V2.chip_command "R" chip.address 1000 (response_bytes chip.type) bus).2) ∧
    response_bytes .ph = 7 ∧ response_bytes .ec = 32 ∧
    response_bytes .orp = 8 ∧ response_bytes .dissolved_oxygen = 14 := by
  refine ⟨?_, ?_, rfl, rfl, rfl, rfl⟩ <;>
    cases h : chip.type <;>
    simp [V1.get_reading, V2.get_reading, response_bytes, h]

/-- C3: for every response size n ≥ 1, when the status byte read back is 1,
`chip_command` returns the remaining n-1 bytes decoded as text, truncated at
the first NUL byte (null-terminated string semantics), in both variants. -/
theorem chip_command_success_decodes (command : String) (chip_address read_delay n : Nat)
    (bus : Nat → Nat) (hn : 1 ≤ n) (hstatus : bus 0 = 1) :
    (V1.chip_command command chip_address read_delay n bus).1 =
      String.mk ((((List.range (n - 1)).map (fun i => bus (i + 1))).takeWhile
        (fun b => b != 0)).map Char.ofNat) ∧
    (V2.chip_command command chip_address read_delay n bus).1 =
      String.mk ((((List.range (n - 1)).map (fun i => bus (i + 1))).takeWhile
        (fun b => b != 0)).map Char.ofNat) := by
  have hne : n ≠ 0 := by omega
  constructor <;>
    simp [V1.chip_command, V2.chip_command, hne, hstatus, decodeCString]

/-- Witness for C3: a 7-byte response with status 1 and payload bytes
"7.02" followed by NULs decodes to "7.02". -/
theorem chip_command_success_decodes_witness :
    (V1.chip_command "R" 99 1000 7 (fun i => List.getD [1, 55, 46, 48, 50, 0, 0] i 0)).1 =
      "7.02" := by
  have h := chip_command_success_decodes "R" 99 1000 7
    (fun i => List.getD [1, 55, 46, 48, 50, 0, 0] i 0) (by decide) (by decide)
  rw [h.1]
  decide

/-- C5: for every response size ≥ 1, the leading status byte maps to the
returned text: 2 gives the fixed "Request Failed" message, 254 the fixed
Pending message, 255 the fixed No Data message, and any other status outside
{1, 2, 254, 255} falls through to empty text, in both variants. -/
theorem chip_command_status_messages (command : String) (chip_address read_delay n : Nat)
    (bus : Nat → Nat) (hn : 1 ≤ n) :
    (bus 0 = 2 →
      (V1.chip_command command chip_address read_delay n bus).1 = requestFailedMsg ∧
      (V2.chip_command command chip_address read_delay n bus).1 = requestFailedMsg) ∧
    (bus 0 = 254 →
      (V1.chip_command command chip_address read_delay n bus).1 = pendingMsg ∧
      (V2.chip_command command chip_address read_delay n bus).1 = pendingMsg) ∧
    (bus 0 = 255 →
      (V1.chip_command command chip_address read_delay n bus).1 = noDataMsg ∧
      (V2.chip_command command chip_address read_delay n bus).1 = noDataMsg) ∧
    (bus 0 ≠ 1 → bus 0 ≠ 2 → bus 0 ≠ 254 → bus 0 ≠ 255 →
      (V1.chip_command command chip_address read_delay n bus).1 = "" ∧
      (V2.chip_command command chip_address read_delay n bus).1 = "") := by
  have hne : n ≠ 0 := by omega
  refine ⟨fun h => ?_, fun h => ?_, fun h => ?_, fun h1 h2 h3 h4 => ?_⟩
  · constructor <;>
      simp [V1.chip_command, V2.chip_command, hne, h, requestFailedMsg]
  · constructor <;>
      simp [V1.chip_command, V2.chip_command, hne, h, pendingMsg]
  · constructor <;>
      simp [V1.chip_command, V2.chip_command, hne, h, noDataMsg]
  · constructor <;>
      simp only [V1.chip_command, V2.chip_command, hne, if_neg, ite_false]

/-- Witness for C5: concrete status bytes 2, 254, 255 and 0 at response
size 7 give each documented message and the empty fallthrough. -/
theorem chip_command_status_messages_witness :
    (V1.chip_command "R" 99 1000 7 (fun _ => 2)).1 = requestFailedMsg ∧
    (V1.chip_command "R" 99 1000 7 (fun _ => 254)).1 = pendingMsg ∧
    (V1.chip_command "R" 99 1000 7 (fun _ => 255)).1 = noDataMsg ∧
    (V1.chip_command "R" 99 1000 7 (fun _ => 0)).1 = "" :=
  ⟨((chip_command_status_messages "R" 99 1000 7 (fun _ => 2) (by decide)).1 rfl).1,
   ((chip_command_status_messages "R" 99 1000 7 (fun _ => 254) (by decide)).2.1 rfl).1,
   ((chip_command_status_messages "R" 99 1000 7 (fun _ => 255) (by decide)).2.2.1 rfl).1,
   ((chip_command_status_messages "R" 99 1000 7 (fun _ => 0) (by decide)).2.2.2
      (by decide) (by decide) (by decide) (by decide)).1⟩

/-- C10: `chip_wake` and `chip_sleep` receive the chip by value and leave it
entirely unchanged, and `get_reading` changes only the `data` field, keeping
`type`, `mode` and `address`, in both variants. -/
theorem wake_sleep_measure_frame (chip : atlas_chip) (bus : Nat → Nat) :
    (V1.chip_wake chip bus).1 = chip ∧ (V1.chip_sleep chip bus).1 = chip ∧
    (V1.get_reading chip bus).1.type = chip.type ∧
    (V1.get_reading chip bus).1.mode = chip.mode ∧
    (V1.get_reading chip bus).1.address = chip.address ∧
    (V2.chip_wake chip bus).1 = chip ∧ (V2.chip_sleep chip bus).1 = chip ∧
    (V2.get_reading chip bus).1.type = chip.type ∧
    (V2.get_reading chip bus).1.mode = chip.mode ∧
    (V2.get_reading chip bus).1.address = chip.address := by
  refine ⟨rfl, rfl, ?_, ?_, ?_, rfl, rfl, ?_, ?_, ?_⟩ <;>
    cases h : chip.type <;>
    simp [V1.get_reading, V2.get_reading, h]

/-- C1: one pass of the main cycle publishes exactly one datagram when
`|atof(new reading) − last_reading|` exceeds the 0.05 threshold and none
otherwise, and `last_reading` becomes the newly parsed value exactly when a
datagram was published, staying unchanged otherwise (float arithmetic
idealised over `ℚ`). -/
theorem threshold_publish_iff (device_id : String) (last_reading : ℚ)
    (chip : atlas_chip) (bus : Nat → Nat) :
    ((V1.loop_step device_id last_reading chip bus).2.2.countP event.isUdpSend =
      if |atof (V1.get_reading chip bus).1.data - last_reading| > delta_to_publish
      then 1 else 0) ∧
    ((V1.loop_step device_id last_reading chip bus).1 =
      if |atof (V1.get_reading chip bus).1.data - last_reading| > delta_to_publish
      then atof (V1.get_reading chip bus).1.data else last_reading) := by
  by_cases hc :
      |atof (V1.get_reading chip bus).1.data - last_reading| > delta_to_publish <;>
    simp [V1.loop_step, chip_wake_fst_v1, hc, List.countP_append, List.countP_cons,
      chip_wake_trace_no_udp, get_reading_trace_no_udp, chip_sleep_trace_no_udp,
      publish_data_udp_count, event.isUdpSend]

theorem atof_failed_string : atof "Request Failed" = 0 := by
  simp +decide [atof, List.dropWhile_cons, List.takeWhile_cons, digitsToNat]

theorem atof_pending_string :
    atof "Pending - the request is still being processed. Ensure that you have waited the minimum time to guarantee a repsonse" = 0 := by
  simp +decide [atof, List.dropWhile_cons, List.takeWhile_cons, digitsToNat]

theorem atof_nodata_string :
    atof "No Data - there is no pending request, so there is no data to return from the circuit" = 0 := by
  simp +decide [atof, List.dropWhile_cons, List.takeWhile_cons, digitsToNat]

theorem atof_empty_string : atof "" = 0 := by
  simp [atof, digitsToNat]

/-- C8: the fixed error strings (and empty text) all parse to 0 under `atof`,
so after an error status the threshold decision compares `|0 − last_reading|`
against 0.05 — indistinguishable from a legitimate zero reading — and when
that difference exceeds the threshold the raw error text itself is published
and `last_reading` becomes 0. -/
theorem error_text_parses_to_zero (device_id : String) (last_reading : ℚ)
    (chip : atlas_chip) (bus : Nat → Nat)
    (herr : bus 0 = 2 ∨ bus 0 = 254 ∨ bus 0 = 255) :
    atof requestFailedMsg = 0 ∧ atof pendingMsg = 0 ∧ atof noDataMsg = 0 ∧
    atof "" = 0 ∧
    atof (V1.get_reading chip bus).1.data = 0 ∧
    ((V1.loop_step device_id last_reading chip bus).2.2.countP event.isUdpSend =
      if |0 - last_reading| > delta_to_publish then 1 else 0) ∧
    ((V1.loop_step device_id last_reading chip bus).1 =
      if |0 - last_reading| > delta_to_publish then (0 : ℚ) else last_reading) ∧
    (|0 - last_reading| > delta_to_publish →
      event.udpSend remoteIP udp_local_port
          ("aqpncs." ++ device_id ++ ":" ++ (V1.get_reading chip bus).1.data ++ "|g") ∈
        (V1.loop_step device_id last_reading chip bus).2.2) := by
  have hmsg : atof (V1.get_reading chip bus).1.data = 0 := by
    rcases herr with h | h | h <;> cases ht : chip.type <;>
      simp [V1.get_reading, ht, V1.chip_command, h, atof_failed_string,
        atof_pending_string, atof_nodata_string]
  refine ⟨atof_failed_string, atof_pending_string, atof_nodata_string,
    atof_empty_string, hmsg, ?_, ?_, ?_⟩
  · by_cases hc : delta_to_publish < |last_reading| <;>
      simp [V1.loop_step, chip_wake_fst_v1, hmsg, hc, List.countP_append,
        List.countP_cons, chip_wake_trace_no_udp, get_reading_trace_no_udp,
        chip_sleep_trace_no_udp, publish_data_udp_count, event.isUdpSend]
  · by_cases hc : delta_to_publish < |last_reading| <;>
      simp [V1.loop_step, chip_wake_fst_v1, hmsg, hc]
  · intro hc
    rw [zero_sub, abs_neg] at hc
    simp [V1.loop_step, chip_wake_fst_v1, hmsg, hc, V1.publish_data]

/-- Witness for C8: with a status-255 bus and retained reading 1, the "No
Data" text parses to 0 and the cycle publishes, setting `last_reading` to 0. -/
theorem error_text_parses_to_zero_witness :
    atof (V1.get_reading ph_chip (fun _ => 255)).1.data = 0 ∧
    (V1.loop_step "dev" 1 ph_chip (fun _ => 255)).1 = 0 := by
  have h := error_text_parses_to_zero "dev" 1 ph_chip (fun _ => 255)
    (Or.inr (Or.inr rfl))
  have hcond : |(0 : ℚ) - 1| > delta_to_publish := by
    rw [zero_sub, abs_neg, abs_one]
    norm_num [delta_to_publish]
  exact ⟨h.2.2.2.2.1, by rw [h.2.2.2.2.2.2.1, if_pos hcond]⟩

theorem filter_flatten_const {α : Type} (p : α → Bool) (l : List α) (n : Nat) :
    (((List.range n).map (fun _ => l)).flatten).filter p =
      ((List.range n).map (fun _ => l.filter p)).flatten := by
  induction n with
  | zero => simp
  | succ k ih => simp [List.range_succ, List.filter_append, ih]

theorem ioEvents_nil : ioEvents [] = [] := rfl

theorem ioEvents_append (l1 l2 : List event) :
    ioEvents (l1 ++ l2) = ioEvents l1 ++ ioEvents l2 := by
  simp [ioEvents]

theorem ioEvents_cons_serial (s : String) (l : List event) :
    ioEvents (event.serialPrint s :: l) = ioEvents l := by
  simp [ioEvents, event.isSerialPrint, event.isI2c, event.isUdpSend]

theorem ioEvents_cons_delay (ms : Nat) (l : List event) :
    ioEvents (event.delayMs ms :: l) = ioEvents l := by
  simp [ioEvents, event.isI2c, event.isUdpSend]

theorem ioEvents_cons_deepSleep (s : Nat) (l : List event) :
    ioEvents (event.deepSleep s :: l) = ioEvents l := by
  simp [ioEvents, event.isI2c, event.isUdpSend]

theorem ioEvents_wake (chip : atlas_chip) (bus : Nat → Nat) :
    ioEvents (V1.chip_wake chip bus).2 = ioEvents (V2.chip_wake chip bus).2 := by
  simp [V1.chip_wake, V2.chip_wake, ioEvents, List.filter_append,
    filter_flatten_const, V1.chip_command, V2.chip_command, event.isI2c,
    event.isUdpSend, event.isSerialPrint]

/-- One main-loop pass of the plain-serial variant, decomposed into its
wake / read / decision / sleep pieces. -/
theorem loop_step_v1_decomp (device_id : String) (last_reading : ℚ)
    (chip : atlas_chip) (bus : Nat → Nat) :
    V1.loop_step device_id last_reading chip bus =
      (if |atof (V1.get_reading chip bus).1.data - last_reading| > delta_to_publish
        then atof (V1.get_reading chip bus).1.data else last_reading,
       (V1.get_reading chip bus).1,
       [event.serialPrint "Waking up chip"] ++ (V1.chip_wake chip bus).2 ++
         [event.serialPrint ("Last reading: " ++ toString last_reading)] ++
         (V1.get_reading chip bus).2 ++
         [event.serialPrint ("This reading: " ++ (V1.get_reading chip bus).1.data)] ++
         (if |atof (V1.get_reading chip bus).1.data - last_reading| > delta_to_publish
           then [event.serialPrint "Detected sensor change greater than configured delta",
              event.serialPrint "Updating EEPROM with last sensor reading"] ++
             V1.publish_data device_id (V1.get_reading chip bus).1.data
           else []) ++
         [event.serialPrint "Putting chip to sleep"] ++
         (V1.chip_sleep (V1.get_reading chip bus).1 bus).2 ++
         [event.delayMs 15000, event.serialPrint "Sleeping for 10 seconds"]) := by
  by_cases hc : delta_to_publish < |atof (V1.get_reading chip bus).1.data - last_reading| <;>
    simp [V1.loop_step, V1.chip_sleep, chip_wake_fst_v1, hc]

/-- One main-loop pass of the debug-macro variant, decomposed into its
wake / read / decision / sleep pieces. -/
theorem loop_step_v2_decomp (device_id : String) (last_reading : ℚ)
    (chip : atlas_chip) (bus : Nat → Nat) :
    V2.loop_step device_id last_reading chip bus =
      (if |atof (V2.get_reading chip bus).1.data - last_reading| > delta_to_publish
        then atof (V2.get_reading chip bus).1.data else last_reading,
       (V2.get_reading chip bus).1,
       (V2.chip_wake chip bus).2 ++ (V2.get_reading chip bus).2 ++
         (if |atof (V2.get_reading chip bus).1.data - last_reading| > delta_to_publish
           then V2.publish_data device_id (V2.get_reading chip bus).1.data
           else []) ++
         (V2.chip_sleep (V2.get_reading chip bus).1 bus).2 ++
         [event.deepSleep 900]) := by
  by_cases hc : delta_to_publish < |atof (V2.get_reading chip bus).1.data - last_reading| <;>
    simp [V2.loop_step, V2.chip_sleep, chip_wake_fst_v2, hc]

/-- C9: the two program variants agree on their core behaviour: given the
same bus responses and retained state, `chip_command`, `get_reading`,
`publish_data` and `chip_sleep` coincide exactly; `chip_wake` returns the
same chip and the same trace once serial debug prints are stripped; and one
main-loop pass produces the same new `last_reading`, the same chip state,
and the same external I/O (I2C traffic and UDP datagrams) — the variants
differ only in debug output and the idle step that ends the pass. -/
theorem variants_equivalent :
    (∀ (command : String) (chip_address read_delay response_size : Nat) (bus : Nat → Nat),
      V1.chip_command command chip_address read_delay response_size bus =
        V2.chip_command command chip_address read_delay response_size bus) ∧
    (∀ (chip : atlas_chip) (bus : Nat → Nat),
      V1.get_reading chip bus = V2.get_reading chip bus) ∧
    (∀ (device_id data : String),
      V1.publish_data device_id data = V2.publish_data device_id data) ∧
    (∀ (chip : atlas_chip) (bus : Nat → Nat),
      V1.chip_sleep chip bus = V2.chip_sleep chip bus) ∧
    (∀ (chip : atlas_chip) (bus : Nat → Nat),
      (V1.chip_wake chip bus).1 = (V2.chip_wake chip bus).1 ∧
      stripSerial (V1.chip_wake chip bus).2 = (V2.chip_wake chip bus).2) ∧
    (∀ (device_id : String) (last_reading : ℚ) (chip : atlas_chip) (bus : Nat → Nat),
      (V1.loop_step device_id last_reading chip bus).1 =
        (V2.loop_step device_id last_reading chip bus).1 ∧
      (V1.loop_step device_id last_reading chip bus).2.1 =
        (V2.loop_step device_id last_reading chip bus).2.1 ∧
      ioEvents (V1.loop_step device_id last_reading chip bus).2.2 =
        ioEvents (V2.loop_step device_id last_reading chip bus).2.2) := by
  refine ⟨fun c a d n bus => rfl, fun chip bus => rfl, fun i d => rfl,
    fun chip bus => rfl, fun chip bus => ⟨rfl, ?_⟩,
    fun device_id last_reading chip bus => ⟨?_, rfl, ?_⟩⟩
  · simp [V1.chip_wake, V2.chip_wake, stripSerial, filter_flatten_const,
      V1.chip_command, V2.chip_command, event.isSerialPrint]
  · by_cases hc : delta_to_publish <
        |atof (V2.get_reading chip bus).1.data - last_reading| <;>
      simp [V1.loop_step, V2.loop_step, chip_wake_fst_v1, chip_wake_fst_v2,
        get_reading_variants_eq, hc]
  · rw [loop_step_v1_decomp, loop_step_v2_decomp,
      ← get_reading_variants_eq chip bus,
      ← chip_sleep_variants_eq (V1.get_reading chip bus).1 bus,
      ← publish_data_variants_eq device_id (V1.get_reading chip bus).1.data]
    by_cases hc : delta_to_publish <
        |atof (V1.get_reading chip bus).1.data - last_reading| <;>
      simp [hc, ioEvents_append, ioEvents_cons_serial, ioEvents_cons_delay,
        ioEvents_cons_deepSleep, ioEvents_nil, ioEvents_wake]

end AtlasStatsd
